import Mathlib

set_option autoImplicit false

/-
  Verification development for the aurora generator add-on
  (src/aurora_generator.py).  The Python source is shallowly embedded:
  Blender float vectors become exact rational vectors, the modal
  path-capture operator `CURVE_OT_DrawPath` becomes a pure transition
  function on an explicit state record, and the compile operator
  `AURORA_OT_Create.execute` becomes a pure function on a scene record.
-/

namespace Aurora

/-- A 3D vector with exact rational coordinates (stands for the Blender
float vectors used by the source). -/
structure Vec3 where
  x : ℚ
  y : ℚ
  z : ℚ
deriving Repr, DecidableEq

/-- Componentwise vector addition. -/
def Vec3.add (a b : Vec3) : Vec3 := ⟨a.x + b.x, a.y + b.y, a.z + b.z⟩

/-- Scalar multiplication of a vector. -/
def Vec3.smul (t : ℚ) (a : Vec3) : Vec3 := ⟨t * a.x, t * a.y, t * a.z⟩

/-- The zero vector. -/
def Vec3.zero : Vec3 := ⟨0, 0, 0⟩

/-- One Bezier control point of the captured spline: coordinate plus the
two handle-type fields set by `update_curve` (source lines 165-168). -/
structure BezierPoint where
  co : Vec3
  handle_left_type : String
  handle_right_type : String
deriving Repr, DecidableEq

/-- A freshly added Bezier point before `update_curve` writes it.  A new
Bezier spline starts with one such point and `bezier_points.add` appends
more of them. -/
def defaultBezierPoint : BezierPoint := ⟨Vec3.zero, "VECTOR", "VECTOR"⟩

/-- A curve object linked into the scene: its name, the control points of
its single Bezier spline, and its selection flag. -/
structure CurveObject where
  name : String
  bezier_points : List BezierPoint
  selected : Bool
deriving Repr, DecidableEq

/-- The state of the modal operator `CURVE_OT_DrawPath` together with the
part of the editor it touches: the clicked points (`self.points`), the
backing curve object name (`self.curve_ob`, `none` until the first valid
click), the curve objects linked into the scene, whether the draw handler
is installed, the window cursor, the active object and the last report. -/
structure DrawState where
  points : List Vec3
  curve_ob : Option String
  sceneObjects : List CurveObject
  handleInstalled : Bool
  cursor : String
  activeObject : Option String
  report : String
deriving Repr, DecidableEq

/-- Event types distinguished by `CURVE_OT_DrawPath.modal`
(source lines 120-149). -/
inductive EventType
  | RIGHTMOUSE
  | RET
  | ESC
  | LEFTMOUSE
  | OTHER
deriving Repr, DecidableEq

/-- An input event: its type and value, plus the 3D ray obtained by
unprojecting the 2D pointer position.  `region_2d_to_origin_3d` and
`region_2d_to_vector_3d` are host (Blender) functions, so the event
carries their results directly. -/
structure Event where
  type : EventType
  value : String
  ray_origin : Vec3
  ray_vec : Vec3
deriving Repr, DecidableEq

/-- Return values of a modal operator. -/
inductive ModalResult
  | FINISHED
  | CANCELLED
  | RUNNING_MODAL
  | PASS_THROUGH
deriving Repr, DecidableEq

/-- Intersection of the click ray with the ground plane z = 0, exactly as
computed at source lines 137-141: if the ray direction has nonzero z, take
t = -origin.z / vec.z and accept the point only when t > 0; otherwise no
location. -/
def rayPlaneHit (origin vec : Vec3) : Option Vec3 :=
  if vec.z ≠ 0 then
    let t : ℚ := -origin.z / vec.z
    if t > 0 then some (origin.add (Vec3.smul t vec)) else none
  else none

/-- Extend a control-point list to length `n` with default points, never
shrinking: `spline.bezier_points.add(num_points - len(...))`
(source lines 162-163). -/
def extendTo (pts : List BezierPoint) (n : Nat) : List BezierPoint :=
  if pts.length < n then pts ++ List.replicate (n - pts.length) defaultBezierPoint else pts

/-- The write loop of `update_curve` (source lines 165-168): overwrite the
first control points with the clicked coordinates and set both handle
types to automatic. -/
def setClicked : List BezierPoint → List Vec3 → List BezierPoint
  | pts, [] => pts
  | [], _ :: _ => []
  | _ :: ps, c :: cs => ⟨c, "AUTO", "AUTO"⟩ :: setClicked ps cs

/-- `CURVE_OT_DrawPath.update_curve` (source lines 151-168): create the
backing curve object on first use (a new Bezier spline carries one default
point), then make the spline at least as long as the click list and write
every clicked coordinate with automatic handles. -/
def update_curve (st : DrawState) : DrawState :=
  match st.curve_ob with
  | none =>
      let pts := setClicked (extendTo [defaultBezierPoint] st.points.length) st.points
      { st with
          curve_ob := some "AuroraCurve"
          sceneObjects := st.sceneObjects ++ [⟨"AuroraCurve", pts, false⟩] }
  | some n =>
      { st with
          sceneObjects := st.sceneObjects.map fun (c : CurveObject) =>
            if c.name == n then
              { c with bezier_points := setClicked (extendTo c.bezier_points st.points.length) st.points }
            else c }

/-- `CURVE_OT_DrawPath.finish` (source lines 170-177): remove the draw
handler, and if a backing curve exists deselect everything, select it and
make it active; restore the cursor and report success. -/
def finish (st : DrawState) : DrawState :=
  let st1 := { st with handleInstalled := false }
  let st2 :=
    match st1.curve_ob with
    | some n =>
        { st1 with
            sceneObjects := st1.sceneObjects.map fun (c : CurveObject) => { c with selected := c.name == n }
            activeObject := some n }
    | none => st1
  { st2 with cursor := "DEFAULT", report := "Path created." }

/-- `CURVE_OT_DrawPath.cancel` (source lines 179-184): remove the draw
handler, delete the backing curve object (unlinking it from the scene) if
one was created, restore the cursor and report cancellation. -/
def cancel (st : DrawState) : DrawState :=
  let st1 := { st with handleInstalled := false }
  let st2 :=
    match st1.curve_ob with
    | some n => { st1 with sceneObjects := st1.sceneObjects.filter fun c => !(c.name == n) }
    | none => st1
  { st2 with cursor := "DEFAULT", report := "Path drawing cancelled." }

/-- `CURVE_OT_DrawPath.modal` (source lines 117-149): confirm on
right-mouse or return, cancel on escape, append the ground-plane
intersection (when it exists) on a primary-button press, pass every other
event through. -/
def modal (st : DrawState) (ev : Event) : DrawState × ModalResult :=
  if ev.type = EventType.RIGHTMOUSE ∨ ev.type = EventType.RET then
    (finish st, ModalResult.FINISHED)
  else if ev.type = EventType.ESC then
    (cancel st, ModalResult.CANCELLED)
  else if ev.type = EventType.LEFTMOUSE ∧ ev.value = "PRESS" then
    match rayPlaneHit ev.ray_origin ev.ray_vec with
    | some loc => (update_curve { st with points := st.points ++ [loc] }, ModalResult.RUNNING_MODAL)
    | none => (st, ModalResult.RUNNING_MODAL)
  else
    (st, ModalResult.PASS_THROUGH)

/-- A capture session that has not yet added any point. -/
def emptySession : DrawState :=
  { points := []
    curve_ob := none
    sceneObjects := []
    handleInstalled := true
    cursor := "CROSSHAIR"
    activeObject := none
    report := "" }

/-- A click whose unprojected ray is parallel to the ground plane. -/
def parallelClick : Event :=
  { type := EventType.LEFTMOUSE, value := "PRESS", ray_origin := ⟨0, 0, 5⟩, ray_vec := ⟨1, 0, 0⟩ }

/-- An escape-key event (the ray fields are irrelevant for it). -/
def escapeEvent : Event :=
  { type := EventType.ESC, value := "PRESS", ray_origin := Vec3.zero, ray_vec := Vec3.zero }

/-- A confirm event (return key). -/
def confirmEvent : Event :=
  { type := EventType.RET, value := "PRESS", ray_origin := Vec3.zero, ray_vec := Vec3.zero }

/-- A session that created a backing curve from one valid click. -/
def sessionWithCurve : DrawState :=
  { points := [⟨0, 0, 0⟩]
    curve_ob := some "AuroraCurve"
    sceneObjects := [⟨"AuroraCurve", [⟨⟨0, 0, 0⟩, "AUTO", "AUTO"⟩], false⟩]
    handleInstalled := true
    cursor := "CROSSHAIR"
    activeObject := none
    report := "" }

/-- RGBA color with exact rational components. -/
structure RGBA where
  r : ℚ
  g : ℚ
  b : ℚ
  a : ℚ
deriving Repr, DecidableEq

/-- The Parameter Set read from `context.scene.aurora_props`
(source lines 27-86), one field per declared property. -/
structure Params where
  aurora_height : ℚ
  subdivisions : Nat
  color1 : RGBA
  color2 : RGBA
  emission_strength : ℚ
  noise_scale : ℚ
  noise_distortion : ℚ
  animate : Bool
deriving Repr, DecidableEq

/-- Color components within the declared [0,1] bounds. -/
def RGBA.valid (c : RGBA) : Prop :=
  0 ≤ c.r ∧ c.r ≤ 1 ∧ 0 ≤ c.g ∧ c.g ≤ 1 ∧ 0 ≤ c.b ∧ c.b ≤ 1 ∧ 0 ≤ c.a ∧ c.a ≤ 1

/-- A Parameter Set within the bounds declared on the properties
(source lines 27-86): height at least 0.1, subdivisions in [2,1024],
colors in [0,1], emission nonnegative, noise scale at least 0.1,
distortion nonnegative. -/
def Params.valid (p : Params) : Prop :=
  1/10 ≤ p.aurora_height ∧ 2 ≤ p.subdivisions ∧ p.subdivisions ≤ 1024 ∧
  p.color1.valid ∧ p.color2.valid ∧ 0 ≤ p.emission_strength ∧
  1/10 ≤ p.noise_scale ∧ 0 ≤ p.noise_distortion

/-- The declared defaults of the Parameter Set (source lines 27-86). -/
def defaultParams : Params :=
  { aurora_height := 5
    subdivisions := 128
    color1 := ⟨1/10, 1, 7/10, 1⟩
    color2 := ⟨3/10, 1/5, 4/5, 1⟩
    emission_strength := 25
    noise_scale := 3/2
    noise_distortion := 1/2
    animate := true }

/-- The shader node types instantiated at source lines 273-290. -/
inductive NodeType
  | OutputMaterial
  | MixShader
  | Emission
  | BsdfTransparent
  | ValToRGB
  | SeparateXYZ
  | TexCoord
  | TexNoise
  | Mapping
  | Math
deriving Repr, DecidableEq

/-- One identifier per node variable created by the source
(lines 273-290), named after the source variables. -/
inductive NodeId
  | output_node
  | mix_shader
  | emission
  | transparent
  | color_ramp_main
  | separate_xyz
  | tex_coord
  | noise_tex
  | mapping_anim
  | mapping_stretch
  | emission_falloff_ramp
  | multiply_emission
  | vertical_fade_ramp
  | combine_fade_and_noise
deriving Repr, DecidableEq

/-- One node link: producer node and output socket, consumer node and
input socket.  Sockets addressed by index in the source are named here:
`inputs[0]`/`inputs[1]` of a math node are "Value0"/"Value1", and
`inputs[1]`/`inputs[2]` of the mix shader are "Shader1"/"Shader2". -/
structure Link where
  fromNode : NodeId
  fromSocket : String
  toNode : NodeId
  toSocket : String
deriving Repr, DecidableEq

/-- The nodes of the appearance graph in creation order
(source lines 273-290). -/
def auroraNodes : List (NodeId × NodeType) :=
  [(NodeId.output_node, NodeType.OutputMaterial),
   (NodeId.mix_shader, NodeType.MixShader),
   (NodeId.emission, NodeType.Emission),
   (NodeId.transparent, NodeType.BsdfTransparent),
   (NodeId.color_ramp_main, NodeType.ValToRGB),
   (NodeId.separate_xyz, NodeType.SeparateXYZ),
   (NodeId.tex_coord, NodeType.TexCoord),
   (NodeId.noise_tex, NodeType.TexNoise),
   (NodeId.mapping_anim, NodeType.Mapping),
   (NodeId.mapping_stretch, NodeType.Mapping),
   (NodeId.emission_falloff_ramp, NodeType.ValToRGB),
   (NodeId.multiply_emission, NodeType.Math),
   (NodeId.vertical_fade_ramp, NodeType.ValToRGB),
   (NodeId.combine_fade_and_noise, NodeType.Math)]

/-- The links of the appearance graph (source lines 332-347), in order. -/
def auroraLinks : List Link :=
  [⟨NodeId.tex_coord, "Generated", NodeId.separate_xyz, "Vector"⟩,
   ⟨NodeId.separate_xyz, "Y", NodeId.color_ramp_main, "Fac"⟩,
   ⟨NodeId.color_ramp_main, "Color", NodeId.emission, "Color"⟩,
   ⟨NodeId.separate_xyz, "Y", NodeId.emission_falloff_ramp, "Fac"⟩,
   ⟨NodeId.emission_falloff_ramp, "Color", NodeId.multiply_emission, "Value0"⟩,
   ⟨NodeId.multiply_emission, "Value", NodeId.emission, "Strength"⟩,
   ⟨NodeId.tex_coord, "Generated", NodeId.mapping_anim, "Vector"⟩,
   ⟨NodeId.mapping_anim, "Vector", NodeId.mapping_stretch, "Vector"⟩,
   ⟨NodeId.mapping_stretch, "Vector", NodeId.noise_tex, "Vector"⟩,
   ⟨NodeId.separate_xyz, "Y", NodeId.vertical_fade_ramp, "Fac"⟩,
   ⟨NodeId.vertical_fade_ramp, "Color", NodeId.combine_fade_and_noise, "Value0"⟩,
   ⟨NodeId.noise_tex, "Fac", NodeId.combine_fade_and_noise, "Value1"⟩,
   ⟨NodeId.combine_fade_and_noise, "Value", NodeId.mix_shader, "Fac"⟩,
   ⟨NodeId.emission, "Emission", NodeId.mix_shader, "Shader1"⟩,
   ⟨NodeId.transparent, "BSDF", NodeId.mix_shader, "Shader2"⟩,
   ⟨NodeId.mix_shader, "Shader", NodeId.output_node, "Surface"⟩]

/-- Declared input sockets per node type, restricted to the sockets the
appearance graph declares and uses (the never-used optional volume and
displacement sockets of the output node are not part of the graph). -/
def nodeInputs : NodeType → List String
  | NodeType.OutputMaterial => ["Surface"]
  | NodeType.MixShader => ["Fac", "Shader1", "Shader2"]
  | NodeType.Emission => ["Color", "Strength"]
  | NodeType.BsdfTransparent => ["Color"]
  | NodeType.ValToRGB => ["Fac"]
  | NodeType.SeparateXYZ => ["Vector"]
  | NodeType.TexCoord => []
  | NodeType.TexNoise => ["Vector", "Scale", "Detail", "Roughness", "Distortion"]
  | NodeType.Mapping => ["Vector", "Location", "Rotation", "Scale"]
  | NodeType.Math => ["Value0", "Value1"]

/-- Whether an input socket carries a default scalar/vector constant when
left unwired.  Shader-valued sockets (the surface input of the output
node and the two shader inputs of the mix shader) have no such default. -/
def socketHasDefault : NodeType → String → Bool
  | NodeType.OutputMaterial, _ => false
  | NodeType.MixShader, s => s == "Fac"
  | _, _ => true

/-- Whether some link feeds the given input socket. -/
def inputLinked (links : List Link) (n : NodeId) (s : String) : Bool :=
  links.any fun l => l.toNode == n && l.toSocket == s

/-- Every declared input of every node is either wired to a producer or
holds a default constant. -/
def allInputsWiredOrDefault (nodes : List (NodeId × NodeType)) (links : List Link) : Bool :=
  nodes.all fun q => (nodeInputs q.2).all fun s => inputLinked links q.1 s || socketHasDefault q.2 s

/-- Direct successors of a node along the links. -/
def succs (links : List Link) (n : NodeId) : List NodeId :=
  (links.filter fun l => l.fromNode == n).map Link.toNode

/-- Grow a reachability frontier by one step. -/
def stepFrontier (links : List Link) (acc : List NodeId) : List NodeId :=
  acc ++ (acc.flatMap (succs links)).filter fun m => !(acc.contains m)

/-- All nodes reachable from the start set within `fuel` steps. -/
def reachSet (links : List Link) : Nat → List NodeId → List NodeId
  | 0, acc => acc
  | fuel + 1, acc => reachSet links fuel (stepFrontier links acc)

/-- Whether some node can reach itself along a nonempty link path. -/
def graphHasCycle (nodes : List (NodeId × NodeType)) (links : List Link) : Bool :=
  nodes.any fun q => (reachSet links nodes.length (succs links q.1)).contains q.1

/-- Number of material-output nodes in the graph. -/
def outputCount (nodes : List (NodeId × NodeType)) : Nat :=
  (nodes.filter fun q => q.2 == NodeType.OutputMaterial).length

/-- One keyframe of an f-curve: frame, value of the animated component and
interpolation mode.  A keyframe freshly created by `keyframe_insert` uses
the default mode "BEZIER". -/
structure Keyframe where
  frame : Int
  value : ℚ
  interpolation : String
deriving Repr, DecidableEq

/-- One f-curve of an action: the RNA data path it animates, the array
index of the animated component, its keyframes and its curve-modifier
kinds. -/
structure FCurve where
  data_path : String
  array_index : Nat
  keyframe_points : List Keyframe
  modifiers : List String
deriving Repr, DecidableEq

/-- The action holding the animation curves of the node tree. -/
structure Action where
  fcurves : List FCurve
deriving Repr, DecidableEq

/-- The scene-facing name Blender assigns to each created node: the type's
default name, deduplicated with a ".001"-style suffix in creation order.
The first mapping node created (`mapping_anim`, line 281) is "Mapping";
the second (`mapping_stretch`, line 282) is "Mapping.001". -/
def nodeName : NodeId → String
  | NodeId.output_node => "Material Output"
  | NodeId.mix_shader => "Mix Shader"
  | NodeId.emission => "Emission"
  | NodeId.transparent => "Transparent BSDF"
  | NodeId.color_ramp_main => "Color Ramp"
  | NodeId.separate_xyz => "Separate XYZ"
  | NodeId.tex_coord => "Texture Coordinate"
  | NodeId.noise_tex => "Noise Texture"
  | NodeId.mapping_anim => "Mapping"
  | NodeId.mapping_stretch => "Mapping.001"
  | NodeId.emission_falloff_ramp => "Color Ramp.001"
  | NodeId.multiply_emission => "Math"
  | NodeId.vertical_fade_ramp => "Color Ramp.002"
  | NodeId.combine_fade_and_noise => "Math.001"

/-- The single-quote character as a string. -/
def singleQuote : String := String.mk [Char.ofNat 39]

/-- The RNA data path `keyframe_insert` records for the Location socket of
a mapping node: Blender addresses node sockets canonically by integer
index, and Location is input 1 of a mapping node, so the path is
`nodes["<node name>"].inputs[1].default_value`. -/
def locationSocketPath (n : NodeId) : String :=
  "nodes[\"" ++ nodeName n ++ "\"].inputs[1].default_value"

/-- The suffix test of the Python `str.endswith`, computed structurally
over the character lists. -/
def strEndsWith (s suff : String) : Bool :=
  decide (suff.data = s.data.drop (s.data.length - suff.data.length))

/-- The literal suffix the source tests f-curve data paths against at
line 356: a bracketed, single-quoted Location, as in the Python source
text. -/
def pyLocationSuffix : String :=
  "[" ++ singleQuote ++ "Location" ++ singleQuote ++ "]"

/-- Insert one keyframe for one array index: extend the matching f-curve,
or create it (together with the action) if it does not exist yet. -/
def insertKey (fcs : List FCurve) (path : String) (idx : Nat) (frame : Int) (v : ℚ) :
    List FCurve :=
  if fcs.any (fun f => f.data_path == path && f.array_index == idx) then
    fcs.map fun (f : FCurve) =>
      if f.data_path == path && f.array_index == idx then
        { f with keyframe_points := f.keyframe_points ++ [⟨frame, v, "BEZIER"⟩] }
      else f
  else
    fcs ++ [⟨path, idx, [⟨frame, v, "BEZIER"⟩], []⟩]

/-- `keyframe_insert` on a 3-component vector socket without an explicit
index keys all three components, in array-index order. -/
def insertKeyVec (fcs : List FCurve) (path : String) (frame : Int) (v : Vec3) : List FCurve :=
  insertKey (insertKey (insertKey fcs path 0 frame v.x) path 1 frame v.y) path 2 frame v.z

/-- The material node tree as configured by source lines 265-347: the
graph topology plus every constant the source sets, and the optional
animation action of the tree. -/
structure ShaderNodeTree where
  nodes : List (NodeId × NodeType)
  links : List Link
  color_ramp_main_elements : List (ℚ × RGBA)
  emission_falloff_elements : List (ℚ × RGBA)
  vertical_fade_elements : List (ℚ × RGBA)
  multiply_emission_value1 : ℚ
  mapping_stretch_scale : Vec3
  mapping_anim_location : Vec3
  noise_scale_value : ℚ
  noise_detail : ℚ
  noise_roughness : ℚ
  noise_distortion_value : ℚ
  animation_data : Option Action
deriving Repr, DecidableEq

/-- Opaque white. -/
def whiteRGBA : RGBA := ⟨1, 1, 1, 1⟩

/-- Opaque black. -/
def blackRGBA : RGBA := ⟨0, 0, 0, 1⟩

/-- The animation step (source lines 350-359): key the Location input of
the animation mapping node at frame 1 with its current value (zero), set
its y component to 5, key again at frame 250; then — the first insert
having created the animation data and action — walk the action's f-curves
and, for those whose data path ends with the literal bracketed quoted
Location suffix, force linear interpolation and add a CYCLES modifier. -/
def applyAnimationStep (tree : ShaderNodeTree) : ShaderNodeTree :=
  let path := locationSocketPath NodeId.mapping_anim
  let act0 : Action := match tree.animation_data with | some a => a | none => ⟨[]⟩
  let loc1 := tree.mapping_anim_location
  let fcs1 := insertKeyVec act0.fcurves path 1 loc1
  let loc2 : Vec3 := ⟨loc1.x, 5, loc1.z⟩
  let fcs2 := insertKeyVec fcs1 path 250 loc2
  let fcs3 := fcs2.map fun (f : FCurve) =>
    if strEndsWith f.data_path pyLocationSuffix then
      { f with
          keyframe_points := f.keyframe_points.map fun (k : Keyframe) =>
            { k with interpolation := "LINEAR" }
          modifiers := f.modifiers ++ ["CYCLES"] }
    else f
  { tree with mapping_anim_location := loc2, animation_data := some ⟨fcs3⟩ }

/-- The whole material node tree produced by `AURORA_OT_Create.execute`
(source lines 265-359): a fresh graph — stale nodes cleared — with the
fixed topology, the constants drawn from the Parameter Set, and the
animation step applied exactly when the animate flag is set. -/
def buildMaterialTree (p : Params) : ShaderNodeTree :=
  let base : ShaderNodeTree :=
    { nodes := auroraNodes
      links := auroraLinks
      color_ramp_main_elements := [(0, p.color1), (1, p.color2)]
      emission_falloff_elements := [(0, whiteRGBA), (1, blackRGBA)]
      vertical_fade_elements := [(0, whiteRGBA), (3/10, blackRGBA), (1, blackRGBA)]
      multiply_emission_value1 := p.emission_strength
      mapping_stretch_scale := ⟨1/5, 10, 1⟩
      mapping_anim_location := Vec3.zero
      noise_scale_value := p.noise_scale
      noise_detail := 5
      noise_roughness := 3/5
      noise_distortion_value := p.noise_distortion
      animation_data := none }
  if p.animate then applyAnimationStep base else base

/-- The default Parameter Set with the animate flag cleared. -/
def noAnimParams : Params := { defaultParams with animate := false }

/-- Geometry of the generated plane mesh, tracked through the edit-mode
operators of source lines 232-242: full side lengths along the local X
and Y axes (a plane has no extent along Z), segment counts per axis, the
smoothness passed to the subdivision, and the pending versus baked
rotation about X. -/
structure MeshGeometry where
  extentX : ℚ
  extentY : ℚ
  segmentsX : Nat
  segmentsY : Nat
  subdivide_smoothness : ℚ
  pending_rotation_x : ℚ
  baked_rotation_x : ℚ
deriving Repr, DecidableEq

/-- `bpy.ops.mesh.primitive_plane_add`: the default plane is a single
quad spanning 2 units along each axis (vertices at plus and minus 1). -/
def primitive_plane_mesh : MeshGeometry := ⟨2, 2, 1, 1, 0, 0, 0⟩

/-- `bpy.ops.transform.resize(value=(sx, sy, sz))` on the fully selected
plane: scale factors applied per axis (the z factor does not affect a
flat plane). -/
def resizeGeom (g : MeshGeometry) (sx sy _sz : ℚ) : MeshGeometry :=
  { g with extentX := g.extentX * sx, extentY := g.extentY * sy }

/-- `bpy.ops.mesh.subdivide(number_cuts=n, smoothness=s)` on the selected
quad grid: n cuts split every edge into n + 1 parts, along both axes. -/
def subdivideGeom (g : MeshGeometry) (number_cuts : Nat) (smoothness : ℚ) : MeshGeometry :=
  { g with
      segmentsX := g.segmentsX * (number_cuts + 1)
      segmentsY := g.segmentsY * (number_cuts + 1)
      subdivide_smoothness := smoothness }

/-- `aurora_object.rotation_euler[0] = r`: a pending object rotation. -/
def setRotationX (g : MeshGeometry) (r : ℚ) : MeshGeometry :=
  { g with pending_rotation_x := r }

/-- `bpy.ops.object.transform_apply(rotation=True)`: bake the pending
rotation into the geometry. -/
def transformApplyRotation (g : MeshGeometry) : MeshGeometry :=
  { g with
      baked_rotation_x := g.baked_rotation_x + g.pending_rotation_x
      pending_rotation_x := 0 }

/-- The geometry scaffold of `AURORA_OT_Create.execute`
(source lines 232-242): plane, resize by (20,1,1), resize by
(1, height/2, 1), subdivide with `subdivisions` cuts and smoothness 0,
rotate 1.5708 radians about X and apply the rotation. -/
def buildScaffold (p : Params) : MeshGeometry :=
  transformApplyRotation
    (setRotationX
      (subdivideGeom
        (resizeGeom (resizeGeom primitive_plane_mesh 20 1 1) 1 (p.aurora_height / 2) 1)
        p.subdivisions 0)
      (15708 / 10000))

/-- Blender entity type tags distinguished by the operator poll. -/
inductive ObjType
  | CURVE
  | MESH
deriving Repr, DecidableEq

/-- One object modifier: its name and type, the curve target of a CURVE
modifier, the texture of a DISPLACE modifier, its strength and its
displacement direction. -/
structure Modifier where
  name : String
  modType : String
  target : Option String
  texture : Option String
  strength : ℚ
  direction : String
deriving Repr, DecidableEq

/-- One scene object: name, entity type, the name of its data block, its
custom properties (the tag store), its modifiers, its material slots and
its selection flag. -/
structure SceneObject where
  name : String
  objType : ObjType
  dataName : String
  customProps : List (String × String)
  modifiers : List Modifier
  materialSlots : List String
  selected : Bool
deriving Repr, DecidableEq

/-- One mesh data block. -/
structure MeshData where
  name : String
  geometry : MeshGeometry
deriving Repr, DecidableEq

/-- One texture data block (the private CLOUDS displacement noise). -/
structure TextureData where
  name : String
  texType : String
  noise_scale : ℚ
deriving Repr, DecidableEq

/-- One material data block with its node tree. -/
structure MaterialData where
  name : String
  use_nodes : Bool
  blend_method : String
  tree : ShaderNodeTree
deriving Repr, DecidableEq

/-- The scene-level state `AURORA_OT_Create.execute` reads and writes:
the linked objects, the mesh, texture and material data blocks, and the
name of the active object. -/
structure Scene where
  objects : List SceneObject
  meshes : List MeshData
  textures : List TextureData
  materials : List MaterialData
  active : Option String
deriving Repr, DecidableEq

/-- Look an object up by name. -/
def getObj (s : Scene) (n : String) : Option SceneObject :=
  s.objects.find? fun o => o.name == n

/-- Read a custom property: `key in obj` plus `obj[key]`. -/
def propGet (props : List (String × String)) (k : String) : Option String :=
  (props.find? fun kv => kv.1 == k).map Prod.snd

/-- Write a custom property, overwriting an existing key. -/
def propSet (props : List (String × String)) (k v : String) : List (String × String) :=
  if props.any (fun kv => kv.1 == k) then
    props.map fun kv => if kv.1 == k then (k, v) else kv
  else
    props ++ [(k, v)]

/-- Users of a mesh data block: the mesh-typed objects referencing it. -/
def meshUsers (s : Scene) (m : String) : Nat :=
  (s.objects.filter fun o => decide (o.objType = ObjType.MESH) && o.dataName == m).length

/-- Users of a texture: the modifiers across all objects referencing it. -/
def texUsers (s : Scene) (t : String) : Nat :=
  (s.objects.flatMap fun o => o.modifiers).countP fun md => md.texture == some t

/-- Zero-padded numeric suffix of Blender name deduplication. -/
def pad3 (k : Nat) : String :=
  if k < 10 then "00" ++ toString k else if k < 100 then "0" ++ toString k else toString k

/-- The k-th candidate name for a base name: the base itself, then
"base.001", "base.002", and so on. -/
def candName (base : String) (k : Nat) : String :=
  if k = 0 then base else base ++ "." ++ pad3 k

/-- Search for the first unused candidate, with enough fuel to succeed. -/
def freshNameAux (base : String) (used : List String) : Nat → Nat → String
  | 0, k => candName base k
  | fuel + 1, k =>
      if used.contains (candName base k) then freshNameAux base used fuel (k + 1)
      else candName base k

/-- The name Blender assigns to a newly created or renamed data block:
the requested name, deduplicated against the used names. -/
def freshName (base : String) (used : List String) : String :=
  freshNameAux base used (used.length + 1) 0

/-- Unlink and remove an object (`bpy.data.objects.remove`). -/
def removeObject (s : Scene) (n : String) : Scene :=
  { s with objects := s.objects.filter fun o => !(o.name == n) }

/-- Remove a mesh data block (`bpy.data.meshes.remove`). -/
def removeMeshData (s : Scene) (n : String) : Scene :=
  { s with meshes := s.meshes.filter fun m => !(m.name == n) }

/-- Remove a texture data block (`bpy.data.textures.remove`). -/
def removeTexture (s : Scene) (n : String) : Scene :=
  { s with textures := s.textures.filter fun t => !(t.name == n) }

/-- Teardown of the prior surface object (source lines 216-223): if the
curve carries the object tag and the named object still exists, remove
the object, then remove its mesh data exactly when no user is left. -/
def teardownObject (s : Scene) (curve : SceneObject) : Scene :=
  match propGet curve.customProps "aurora_object_name" with
  | none => s
  | some oldName =>
    match getObj s oldName with
    | none => s
    | some oldObj =>
      let s1 := removeObject s oldName
      if s1.meshes.any (fun m => m.name == oldObj.dataName)
          && decide (meshUsers s1 oldObj.dataName = 0) then
        removeMeshData s1 oldObj.dataName
      else s1

/-- Teardown of the prior displacement texture (source lines 225-229):
if the curve carries the texture tag, the named texture still exists and
it is otherwise unreferenced, remove it. -/
def teardownTexture (s : Scene) (curve : SceneObject) : Scene :=
  match propGet curve.customProps "aurora_texture_name" with
  | none => s
  | some tn =>
    if s.textures.any (fun t => t.name == tn) && decide (texUsers s tn = 0) then
      removeTexture s tn
    else s

/-- Apply an update to the named object. -/
def updateObject (s : Scene) (n : String) (f : SceneObject → SceneObject) : Scene :=
  { s with objects := s.objects.map fun o => if o.name == n then f o else o }

/-- The body of `AURORA_OT_Create.execute` (source lines 211-371) run on
the active curve object: teardown, geometry scaffold, modifier rig,
material lookup or creation, node-tree synthesis with optional animation,
tagging and selection handover. -/
def executeOnCurve (p : Params) (s : Scene) (curve : SceneObject) : Scene :=
  let s2 := teardownTexture (teardownObject s curve) curve
  let meshName := freshName "Plane" (s2.meshes.map MeshData.name)
  let auroraName := freshName "Aurora" (s2.objects.map SceneObject.name)
  let geom := buildScaffold p
  let texName := freshName "AuroraDisplaceTexture" (s2.textures.map TextureData.name)
  let tex : TextureData := ⟨texName, "CLOUDS", 1/2⟩
  let mods : List Modifier :=
    [⟨"FollowCurve", "CURVE", some curve.name, none, 1, ""⟩,
     ⟨"Displacement", "DISPLACE", none, some texName, 7/10, "Z"⟩]
  let oldMat :=
    match propGet curve.customProps "aurora_material_name" with
    | some mn => s2.materials.find? fun (m : MaterialData) => m.name == mn
    | none => none
  let matName :=
    match oldMat with
    | some m => m.name
    | none => freshName "Aurora_Material" (s2.materials.map MaterialData.name)
  let newMat : MaterialData := ⟨matName, true, "BLEND", buildMaterialTree p⟩
  let materials2 :=
    match oldMat with
    | some _ => s2.materials.map fun (m : MaterialData) => if m.name == matName then newMat else m
    | none => s2.materials ++ [newMat]
  let curveProps0 :=
    match oldMat with
    | some _ => curve.customProps
    | none => propSet curve.customProps "aurora_material_name" matName
  let curveProps :=
    propSet (propSet curveProps0 "aurora_object_name" auroraName) "aurora_texture_name" texName
  let auroraObj : SceneObject :=
    ⟨auroraName, ObjType.MESH, meshName, [], mods, [matName], true⟩
  let s3 := updateObject s2 curve.name fun c =>
    { c with customProps := curveProps, selected := false }
  { s3 with
      objects := s3.objects ++ [auroraObj]
      meshes := s3.meshes ++ [⟨meshName, geom⟩]
      textures := s3.textures ++ [tex]
      materials := materials2
      active := some auroraName }

/-- Success or named failure of an operator invocation. -/
inductive OpStatus
  | FINISHED (report : String)
  | POLL_FAILED
deriving Repr, DecidableEq

/-- `AURORA_OT_Create.poll` (source lines 207-209): an active object
exists and is curve-typed. -/
def poll (s : Scene) : Bool :=
  match s.active.bind (getObj s) with
  | some o => decide (o.objType = ObjType.CURVE)
  | none => false

/-- The compile operation as invoked through the host: the poll test
guards the execute body, and a failed poll aborts with a named failure
and no effect on the scene. -/
def compile_effect (p : Params) (s : Scene) : Scene × OpStatus :=
  if poll s then
    match s.active.bind (getObj s) with
    | some o => (executeOnCurve p s o, OpStatus.FINISHED "Aurora created/updated successfully!")
    | none => (s, OpStatus.POLL_FAILED)
  else
    (s, OpStatus.POLL_FAILED)

/-- A freshly authored, untagged curve object. -/
def initialCurve : SceneObject :=
  ⟨"AuroraCurve", ObjType.CURVE, "AuroraPath", [], [], [], true⟩

/-- A scene holding exactly the authored curve, which is active. -/
def initialCompileScene : Scene :=
  ⟨[initialCurve], [], [], [], some "AuroraCurve"⟩

/-- Two consecutive compiles on the same curve.  After the first run the
new surface is the active object, so the user re-selects the curve before
invoking the operator again (the poll requires an active curve). -/
def runTwice (p : Params) : Scene :=
  let s1 := (compile_effect p initialCompileScene).1
  (compile_effect p { s1 with active := some "AuroraCurve" }).1

/-- The keys persisted on the authored curve. -/
def curveTagKeys (s : Scene) : List String :=
  match getObj s "AuroraCurve" with
  | some c => c.customProps.map Prod.fst
  | none => []

/-- Minimum-resolution Parameter Set from the spec's test scenario. -/
def minParams : Params :=
  { defaultParams with aurora_height := 1, subdivisions := 2 }

/-- A scene whose active object is mesh-typed, not a curve. -/
def meshOnlyScene : Scene :=
  ⟨[⟨"Cube", ObjType.MESH, "Cube", [], [], [], true⟩], [], [], [], some "Cube"⟩

end Aurora

namespace Aurora

/-- The node list of the built tree is the fixed creation-order list,
whatever the Parameter Set. -/
theorem buildMaterialTree_nodes_eq (p : Params) :
    (buildMaterialTree p).nodes = auroraNodes := by
  unfold buildMaterialTree applyAnimationStep
  cases p.animate <;> rfl

/-- The link list of the built tree is the fixed wiring list, whatever
the Parameter Set. -/
theorem buildMaterialTree_links_eq (p : Params) :
    (buildMaterialTree p).links = auroraLinks := by
  unfold buildMaterialTree applyAnimationStep
  cases p.animate <;> rfl

/-- C6: during path capture, a primary-button click whose unprojected ray
is parallel to the ground plane (direction z = 0) or whose ray-plane
intersection parameter is negative (intersection behind the ray origin)
adds no point: the state, hence the captured point count and the backing
curve, is unchanged, no error is raised, and the operator keeps running. -/
theorem degenerate_click_is_noop (st : DrawState) (ev : Event)
    (htype : ev.type = EventType.LEFTMOUSE) (hval : ev.value = "PRESS")
    (hdeg : ev.ray_vec.z = 0 ∨ -ev.ray_origin.z / ev.ray_vec.z < 0) :
    modal st ev = (st, ModalResult.RUNNING_MODAL) := by
  have hhit : rayPlaneHit ev.ray_origin ev.ray_vec = none := by
    rcases hdeg with hz | ht
    · simp [rayPlaneHit, hz]
    · by_cases hz : ev.ray_vec.z = 0
      · rw [hz] at ht
        simp at ht
      · simp only [rayPlaneHit, hz, ne_eq, not_false_eq_true, if_true]
        rw [if_neg]
        exact not_lt.mpr (le_of_lt ht)
  simp [modal, htype, hval, hhit]

/-- Witness for C6 at a concrete parallel click. -/
theorem degenerate_click_is_noop_witness :
    modal emptySession parallelClick = (emptySession, ModalResult.RUNNING_MODAL) :=
  degenerate_click_is_noop emptySession parallelClick rfl rfl (Or.inl rfl)

/-- C7: pressing the cancel key ends the session in the CANCELLED state,
removes the per-frame overlay handler, deletes the backing curve entity
from the scene if one was created, restores the default cursor and reports
cancellation; if the session curve was the only object in the scene, no
curve entity remains. -/
theorem cancel_deletes_backing_curve (st : DrawState) (ev : Event) (n : String)
    (hesc : ev.type = EventType.ESC) (hcurve : st.curve_ob = some n) :
    (modal st ev).2 = ModalResult.CANCELLED ∧
    (modal st ev).1.handleInstalled = false ∧
    (modal st ev).1.sceneObjects = st.sceneObjects.filter (fun c => !(c.name == n)) ∧
    (modal st ev).1.cursor = "DEFAULT" ∧
    (modal st ev).1.report = "Path drawing cancelled." ∧
    ((∀ c ∈ st.sceneObjects, c.name = n) → (modal st ev).1.sceneObjects = []) := by
  have hmodal : modal st ev = (cancel st, ModalResult.CANCELLED) := by
    simp [modal, hesc]
  rw [hmodal]
  refine ⟨rfl, ?_, ?_, ?_, ?_, ?_⟩
  · simp [cancel, hcurve]
  · simp [cancel, hcurve]
  · simp [cancel, hcurve]
  · simp [cancel, hcurve]
  · intro hall
    simp only [cancel, hcurve]
    simp only [List.filter_eq_nil_iff]
    intro c hc
    simp [hall c hc]

/-- Witness for C7: cancelling a session whose scene holds exactly the
session-created curve leaves an empty scene. -/
theorem cancel_deletes_backing_curve_witness :
    (modal sessionWithCurve escapeEvent).2 = ModalResult.CANCELLED ∧
    (modal sessionWithCurve escapeEvent).1.handleInstalled = false ∧
    (modal sessionWithCurve escapeEvent).1.sceneObjects =
      sessionWithCurve.sceneObjects.filter (fun c => !(c.name == "AuroraCurve")) ∧
    (modal sessionWithCurve escapeEvent).1.cursor = "DEFAULT" ∧
    (modal sessionWithCurve escapeEvent).1.report = "Path drawing cancelled." ∧
    ((∀ c ∈ sessionWithCurve.sceneObjects, c.name = "AuroraCurve") →
      (modal sessionWithCurve escapeEvent).1.sceneObjects = []) :=
  cancel_deletes_backing_curve sessionWithCurve escapeEvent "AuroraCurve" rfl rfl

/-- C10: confirming a capture session in which no valid point was ever
added (the backing curve was never created) still terminates in the
FINISHED state with the success report: the overlay handler is removed and
the cursor restored, while the scene objects — hence selection — and the
active object are left unchanged and no curve entity is created. -/
theorem confirm_empty_session_finishes (st : DrawState) (ev : Event)
    (hconf : ev.type = EventType.RIGHTMOUSE ∨ ev.type = EventType.RET)
    (hnone : st.curve_ob = none) :
    modal st ev =
      ({ st with handleInstalled := false, cursor := "DEFAULT", report := "Path created." },
        ModalResult.FINISHED) := by
  have hmodal : modal st ev = (finish st, ModalResult.FINISHED) := by
    rcases hconf with h | h <;> simp [modal, h]
  rw [hmodal]
  simp [finish, hnone]

/-- Witness for C10 on the empty session and the return key. -/
theorem confirm_empty_session_finishes_witness :
    modal emptySession confirmEvent =
      ({ emptySession with handleInstalled := false, cursor := "DEFAULT", report := "Path created." },
        ModalResult.FINISHED) :=
  confirm_empty_session_finishes emptySession confirmEvent (Or.inr rfl) rfl

/-- C4: for every Parameter Set, the appearance graph produced by the
compile step has exactly one output node, no cycles, and every declared
node input either wired to a producer or left at a default constant. -/
theorem appearance_graph_invariant (p : Params) :
    outputCount (buildMaterialTree p).nodes = 1 ∧
    graphHasCycle (buildMaterialTree p).nodes (buildMaterialTree p).links = false ∧
    allInputsWiredOrDefault (buildMaterialTree p).nodes (buildMaterialTree p).links = true := by
  rw [buildMaterialTree_nodes_eq, buildMaterialTree_links_eq]
  refine ⟨by decide, by decide, by decide⟩

/-- C8: the pattern-stage animation-offset mapping node is a node distinct
from the stretch mapping node, both are in the graph, the chain runs from
the source coordinate through the offset node into the stretch node and on
into the noise node, and at rest (animate flag cleared) the offset node
applies a zero location offset. -/
theorem anim_offset_node_distinct_and_chained (p : Params) (h : p.animate = false) :
    NodeId.mapping_anim ≠ NodeId.mapping_stretch ∧
    (NodeId.mapping_anim, NodeType.Mapping) ∈ (buildMaterialTree p).nodes ∧
    (NodeId.mapping_stretch, NodeType.Mapping) ∈ (buildMaterialTree p).nodes ∧
    (⟨NodeId.tex_coord, "Generated", NodeId.mapping_anim, "Vector"⟩ : Link) ∈
      (buildMaterialTree p).links ∧
    (⟨NodeId.mapping_anim, "Vector", NodeId.mapping_stretch, "Vector"⟩ : Link) ∈
      (buildMaterialTree p).links ∧
    (⟨NodeId.mapping_stretch, "Vector", NodeId.noise_tex, "Vector"⟩ : Link) ∈
      (buildMaterialTree p).links ∧
    (buildMaterialTree p).mapping_anim_location = Vec3.zero := by
  have hloc : (buildMaterialTree p).mapping_anim_location = Vec3.zero := by
    unfold buildMaterialTree
    rw [h]
    rfl
  rw [buildMaterialTree_nodes_eq, buildMaterialTree_links_eq]
  exact ⟨by decide, by decide, by decide, by decide, by decide, by decide, hloc⟩

/-- Witness for C8 at the default Parameter Set with animation off. -/
theorem anim_offset_node_distinct_and_chained_witness :
    NodeId.mapping_anim ≠ NodeId.mapping_stretch ∧
    (NodeId.mapping_anim, NodeType.Mapping) ∈ (buildMaterialTree noAnimParams).nodes ∧
    (NodeId.mapping_stretch, NodeType.Mapping) ∈ (buildMaterialTree noAnimParams).nodes ∧
    (⟨NodeId.tex_coord, "Generated", NodeId.mapping_anim, "Vector"⟩ : Link) ∈
      (buildMaterialTree noAnimParams).links ∧
    (⟨NodeId.mapping_anim, "Vector", NodeId.mapping_stretch, "Vector"⟩ : Link) ∈
      (buildMaterialTree noAnimParams).links ∧
    (⟨NodeId.mapping_stretch, "Vector", NodeId.noise_tex, "Vector"⟩ : Link) ∈
      (buildMaterialTree noAnimParams).links ∧
    (buildMaterialTree noAnimParams).mapping_anim_location = Vec3.zero :=
  anim_offset_node_distinct_and_chained noAnimParams rfl

/-- C2, evaluated on the code: with the animate flag cleared no animation
action exists on the tree; with the animate flag set, each component
f-curve of the pattern-offset location carries exactly the keyframes at
frame 1 (value 0) and frame 250 (y component 5), but — because the
generated data paths end in an index-addressed default_value and never in
the bracketed quoted Location suffix the source tests for — every
keyframe keeps the default BEZIER interpolation and no CYCLES modifier is
attached, contradicting the claimed linear interpolation and cyclic
modifier. -/
theorem animation_keyframes_without_linear_or_cycles :
    (buildMaterialTree noAnimParams).animation_data = none ∧
    (buildMaterialTree defaultParams).animation_data = some
      ⟨[⟨locationSocketPath NodeId.mapping_anim, 0,
          [⟨1, 0, "BEZIER"⟩, ⟨250, 0, "BEZIER"⟩], []⟩,
        ⟨locationSocketPath NodeId.mapping_anim, 1,
          [⟨1, 0, "BEZIER"⟩, ⟨250, 5, "BEZIER"⟩], []⟩,
        ⟨locationSocketPath NodeId.mapping_anim, 2,
          [⟨1, 0, "BEZIER"⟩, ⟨250, 0, "BEZIER"⟩], []⟩]⟩ := by
  constructor
  · rfl
  · rfl

/-- C3 counterexample: at height 1 and resolution 2, the scaffold's long
axis measures 40 units (the 2-unit default plane scaled by factor 20),
not 20, and the subdivision yields 3 segments along the length, not the
2 requested by the resolution parameter. -/
theorem scaffold_counterexample :
    (buildScaffold minParams).extentX = 40 ∧
    ¬ (buildScaffold minParams).extentX = 20 ∧
    (buildScaffold minParams).segmentsX = 3 ∧
    ¬ (buildScaffold minParams).segmentsX = 2 := by
  refine ⟨?_, ?_, by decide, by decide⟩
  · norm_num [buildScaffold, transformApplyRotation, setRotationX, subdivideGeom, resizeGeom,
      primitive_plane_mesh, minParams, defaultParams]
  · norm_num [buildScaffold, transformApplyRotation, setRotationX, subdivideGeom, resizeGeom,
      primitive_plane_mesh, minParams, defaultParams]

/-- C3 amended: the scaffold is a flat rectangle scaled by factor 20
along its long axis (40 units, the default plane being 2 units across)
and by half the requested height along the short axis (full width equal
to the height), subdivided by `resolution` cuts into resolution + 1
uniform segments along each axis with zero smoothness, then rotated
1.5708 radians about X with the rotation baked into the geometry (no
pending rotation remains). -/
theorem scaffold_geometry (p : Params) :
    (buildScaffold p).extentX = 40 ∧
    (buildScaffold p).extentY = p.aurora_height ∧
    (buildScaffold p).segmentsX = p.subdivisions + 1 ∧
    (buildScaffold p).segmentsY = p.subdivisions + 1 ∧
    (buildScaffold p).subdivide_smoothness = 0 ∧
    (buildScaffold p).pending_rotation_x = 0 ∧
    (buildScaffold p).baked_rotation_x = 15708 / 10000 := by
  unfold buildScaffold transformApplyRotation setRotationX subdivideGeom resizeGeom
    primitive_plane_mesh
  refine ⟨by norm_num, by ring, by simp, by simp, by simp, by simp, by simp⟩

/-- C9: when the active entity is absent or not curve-typed, the compile
operation fails with the named poll failure and leaves the scene
untouched — no side effects. -/
theorem compile_requires_curve (p : Params) (s : Scene) (h : poll s = false) :
    compile_effect p s = (s, OpStatus.POLL_FAILED) := by
  simp [compile_effect, h]

/-- Witness for C9 on a scene whose active object is a mesh. -/
theorem compile_requires_curve_witness :
    compile_effect defaultParams meshOnlyScene = (meshOnlyScene, OpStatus.POLL_FAILED) :=
  compile_requires_curve defaultParams meshOnlyScene rfl

/-- C5 counterexample: one compile on a fresh curve persists three
string tags on it, not two — a material-name tag is stored alongside the
surface-object and noise-texture tags. -/
theorem persisted_tags_counterexample :
    curveTagKeys (compile_effect defaultParams initialCompileScene).1 =
      ["aurora_material_name", "aurora_object_name", "aurora_texture_name"] ∧
    ¬ (curveTagKeys (compile_effect defaultParams initialCompileScene).1).length = 2 := by
  exact ⟨rfl, by decide⟩

/-- C5 amended: the state persisted on the curve consists of exactly
three string tags — the material name, used to re-find and reuse the
material, plus the surface-object name and the noise-texture name used
by the teardown lookup — and on an untagged curve both teardown steps
delete nothing (absence of a tag means no prior artifact). -/
theorem persisted_tags_amended (p : Params) :
    curveTagKeys (compile_effect p initialCompileScene).1 =
      ["aurora_material_name", "aurora_object_name", "aurora_texture_name"] ∧
    ((getObj (compile_effect p initialCompileScene).1 "AuroraCurve").map fun c =>
        propGet c.customProps "aurora_object_name") = some (some "Aurora") ∧
    ((getObj (compile_effect p initialCompileScene).1 "AuroraCurve").map fun c =>
        propGet c.customProps "aurora_texture_name") = some (some "AuroraDisplaceTexture") ∧
    ((getObj (compile_effect p initialCompileScene).1 "AuroraCurve").map fun c =>
        propGet c.customProps "aurora_material_name") = some (some "Aurora_Material") ∧
    teardownObject initialCompileScene initialCurve = initialCompileScene ∧
    teardownTexture initialCompileScene initialCurve = initialCompileScene := by
  refine ⟨rfl, rfl, rfl, rfl, rfl, rfl⟩

set_option maxHeartbeats 2000000 in
/-- C1: for every valid Parameter Set, compiling twice consecutively on
the same curve leaves exactly one live artifact: one mesh-typed surface
object, one mesh data block, one noise texture and one material, with the
curve's tags resolving to the live surface and texture — nothing
accumulates. -/
theorem compile_twice_single_artifact (p : Params) (h : p.valid) :
    ((runTwice p).objects.filter fun o => decide (o.objType = ObjType.MESH)).length = 1 ∧
    (runTwice p).objects.length = 2 ∧
    (runTwice p).meshes.length = 1 ∧
    (runTwice p).textures.length = 1 ∧
    (runTwice p).materials.length = 1 ∧
    ((getObj (runTwice p) "AuroraCurve").map fun c =>
        propGet c.customProps "aurora_object_name") = some (some "Aurora") ∧
    ((getObj (runTwice p) "AuroraCurve").map fun c =>
        propGet c.customProps "aurora_texture_name") = some (some "AuroraDisplaceTexture") ∧
    ((runTwice p).objects.map SceneObject.name) = ["AuroraCurve", "Aurora"] ∧
    ((runTwice p).textures.map TextureData.name) = ["AuroraDisplaceTexture"] := by
  refine ⟨rfl, rfl, rfl, rfl, rfl, rfl, rfl, rfl, rfl⟩

set_option maxHeartbeats 2000000 in
/-- Witness for C1 at the default Parameter Set. -/
theorem compile_twice_single_artifact_witness :
    ((runTwice defaultParams).objects.filter fun o =>
        decide (o.objType = ObjType.MESH)).length = 1 ∧
    (runTwice defaultParams).objects.length = 2 ∧
    (runTwice defaultParams).meshes.length = 1 ∧
    (runTwice defaultParams).textures.length = 1 ∧
    (runTwice defaultParams).materials.length = 1 ∧
    ((getObj (runTwice defaultParams) "AuroraCurve").map fun c =>
        propGet c.customProps "aurora_object_name") = some (some "Aurora") ∧
    ((getObj (runTwice defaultParams) "AuroraCurve").map fun c =>
        propGet c.customProps "aurora_texture_name") = some (some "AuroraDisplaceTexture") ∧
    ((runTwice defaultParams).objects.map SceneObject.name) = ["AuroraCurve", "Aurora"] ∧
    ((runTwice defaultParams).textures.map TextureData.name) = ["AuroraDisplaceTexture"] :=
  compile_twice_single_artifact defaultParams
    (by norm_num [Params.valid, RGBA.valid, defaultParams])

end Aurora
